import Mathlib

/-!
Shallow embedding of the analytic core of the whale-watcher repository
(file `whale_watcher_agent.py`): the trading-threshold configuration block,
`TradeJournal.get_positions`, `TaxLotTracker.analyze_tax_lots` and
`TaxLotTracker.get_tax_alerts`, `TechnicalAnalyzer.calculate_rsi` and
`TechnicalAnalyzer.detect_divergence`, and `PositionAnalyzer`
(`_get_peak_since_buy`, `drawdown_from_peak`, `calculate_risk_score`,
`generate_signal`).

Modelling conventions, fixed once for the whole file:
- Python floats are modelled as rationals.  A float position that the source
  can leave as IEEE NaN (the RSI value, the volume ratio, support and
  resistance from short rolling windows) is modelled as `Option` with
  `none` standing for NaN; every comparison against a possibly-NaN value is
  made through the `nan`-prefixed helpers below, which return `false` when
  either side is NaN, exactly as IEEE comparisons do.
- Branch labels of `generate_signal` are f-strings in the source whose text
  interpolates numbers; the embedding abstracts each branch label to a
  constructor of `SignalLabel`, one constructor per source branch, and does
  not model the free-text `reasoning` strings (presentation only, read by
  no computation in the repository).
- Dates are modelled as naturals ordered as the ISO date strings of the
  source are ordered.
-/

namespace WhaleWatcher

/-- Profit tier 1 threshold, source line 30. -/
def PROFIT_TIER_1 : ℚ := 15

/-- Profit tier 2 threshold, source line 31. -/
def PROFIT_TIER_2 : ℚ := 25

/-- Profit tier 3 threshold, source line 32. -/
def PROFIT_TIER_3 : ℚ := 40

/-- Profit tier 4 threshold, source line 33. -/
def PROFIT_TIER_4 : ℚ := 60

/-- Warning-zone stop level, source line 36. -/
def STOP_LOSS_WARN : ℚ := -5

/-- Soft stop level, source line 37. -/
def STOP_LOSS_SOFT : ℚ := -8

/-- Hard stop level, source line 38. -/
def STOP_LOSS_HARD : ℚ := -15

/-- Trailing-stop percentage from the peak, source line 41. -/
def TRAILING_STOP_PCT : ℚ := 12

/-- RSI threshold for adding on a dip, source line 44. -/
def ADD_ON_DIP_RSI : ℚ := 35

/-- Drawdown-from-cost threshold for adding on a dip, source line 45. -/
def ADD_ON_DIP_DRAWDOWN : ℚ := -10

/-- Gain threshold for adding on a breakout, source line 46. -/
def ADD_ON_BREAKOUT_PCT : ℚ := 5

/-- Settling period in days, source line 49. -/
def SETTLING_PERIOD_DAYS : ℤ := 3

/-- Minimum holding days before adding to a position, source line 50. -/
def MIN_HOLD_FOR_ADD : ℤ := 7

/-- RSI oversold band, source line 53. -/
def RSI_OVERSOLD : ℚ := 30

/-- RSI overbought band, source line 54. -/
def RSI_OVERBOUGHT : ℚ := 70

/-- RSI extreme overbought band, source line 56. -/
def RSI_EXTREME_OVERBOUGHT : ℚ := 80

/-- Volume spike level, 2.5 in the source (line 57, named with RA TIO there;
renamed here for lexical reasons only). -/
def VOLUME_SPIKE_LVL : ℚ := 5/2

/-- Days to hold for long-term capital gains treatment, source line 65. -/
def SHORT_TERM_DAYS : ℤ := 365

/-- Advance-warning buffer before long-term eligibility, source line 66. -/
def LONG_TERM_BUFFER_DAYS : ℤ := 14

/-- Strictly-less comparison of a possibly-NaN float against a real constant:
NaN compares false on either side, as in IEEE arithmetic. -/
def nanLt (x : Option ℚ) (c : ℚ) : Bool :=
  match x with
  | some a => decide (a < c)
  | none => false

/-- Strictly-greater comparison of a possibly-NaN float against a real
constant: NaN compares false. -/
def nanGt (x : Option ℚ) (c : ℚ) : Bool :=
  match x with
  | some a => decide (c < a)
  | none => false

/-- Strictly-less comparison of two possibly-NaN floats: false when either
side is NaN. -/
def nanLtO (x y : Option ℚ) : Bool :=
  match x, y with
  | some a, some b => decide (a < b)
  | _, _ => false

/-- Strictly-greater comparison of two possibly-NaN floats: false when either
side is NaN. -/
def nanGtO (x y : Option ℚ) : Bool :=
  nanLtO y x

/-- Trend classification computed at source line 1024 from the price versus
the 20- and 50-bar simple moving averages. -/
inductive Trend
  | UP
  | DOWN
  | SIDEWAYS
deriving DecidableEq

/-- Volume pattern labels produced by `volume_analysis`, source lines 962 to
967. -/
inductive VolPattern
  | ACCUMULATION
  | DISTRIBUTION
  | NEUTRAL
deriving DecidableEq

/-- Divergence labels produced by `detect_divergence`, source lines 928 and
935. -/
inductive Divergence
  | BULLISH
  | BEARISH
deriving DecidableEq

/-- The action component of a generated signal, one constructor per distinct
action string assigned in `generate_signal`. -/
inductive SigAction
  | SELL_ALL
  | SELL_MOST
  | SELL_HALF
  | SELL_QUARTER
  | CONSIDER_TRIM
  | WATCH_CLOSELY
  | EVALUATE
  | MONITOR
  | BUY_MORE
  | HOLD_STRONG
  | HOLD
deriving DecidableEq

/-- One constructor per branch of `generate_signal` (the source builds an
f-string label in each branch; the interpolated numbers are presentation
only, so the label is abstracted to the branch identity). -/
inductive SignalLabel
  | WEEKEND
  | NEW_WAIT
  | NEW_CAUTION
  | NEW_SETTLING
  | STOP_LOSS
  | TRAILING_STOP
  | TAKE_PROFIT
  | RSI_TRIM
  | TRIM_T3
  | PROFIT_T2
  | OVERBOUGHT_T1
  | BEARISH_DIV_WARN
  | DISTRIBUTION_WARN
  | SOFT_LOSS
  | WARN_LOSS
  | ADD_ON_DIP
  | BULLISH_DIV
  | BREAKOUT
  | ACCUM_STRONG
  | HOLD_T1
  | HOLD_PROFIT
  | HOLD_LOSS
deriving DecidableEq

/-- The attributes of a `PositionAnalyzer` instance that `generate_signal`
and `calculate_risk_score` read (source lines 983 to 1031).  `rsi`,
`volQuot` (named vol and RA TIO joined by an underscore in the source) and
`resistance` can be NaN in the source when the series is short, hence
`Option`; `holding_days` is `None` when no purchase date is known. -/
structure PosState where
  holding_days : Option ℤ
  is_crypto : Bool
  is_weekend : Bool
  gain_loss_pct : ℚ
  drawdown_from_peak : ℚ
  rsi : Option ℚ
  divergence : Option Divergence
  vol_pattern : VolPattern
  volQuot : Option ℚ
  trend : Trend
  current_price : ℚ
  resistance : Option ℚ
deriving DecidableEq

/-- `calculate_risk_score`, source lines 1085 to 1131: base 50, six
sequential adjustments, clamped into the interval from 0 to 100.  The
comparisons against the possibly-NaN RSI go through the IEEE-style helpers
(a NaN RSI triggers no adjustment, as in the source). -/
def calculate_risk_score (s : PosState) : ℤ :=
  max 0 (min 100 (50
    + (if s.gain_loss_pct < -10 then 15
       else if s.gain_loss_pct < -5 then 8
       else if 20 < s.gain_loss_pct then -10
       else if 10 < s.gain_loss_pct then -5
       else 0)
    + (if nanGt s.rsi 80 then 15
       else if nanGt s.rsi 70 then 8
       else if nanLt s.rsi 30 then -5
       else 0)
    + (if s.trend = .DOWN then 10
       else if s.trend = .UP then -10
       else 0)
    + (if s.vol_pattern = .DISTRIBUTION then 12
       else if s.vol_pattern = .ACCUMULATION then -8
       else 0)
    + (if s.drawdown_from_peak < -15 then 15
       else if s.drawdown_from_peak < -10 then 8
       else 0)
    + (if s.divergence = some .BEARISH then 10
       else if s.divergence = some .BULLISH then -10
       else 0)))

/-- The settling test of source line 1135: the holding duration is known and
at most `SETTLING_PERIOD_DAYS`. -/
def is_settling (hd : Option ℤ) : Bool :=
  match hd with
  | none => false
  | some h => decide (h ≤ SETTLING_PERIOD_DAYS)

/-- The holding-duration guard shared by the add-on-dip and add-on-breakout
branches (source lines 1290 and 1313): Python truthiness of `holding_days`
followed by the comparison against `MIN_HOLD_FOR_ADD`. -/
def hold_eligible (hd : Option ℤ) : Bool :=
  match hd with
  | none => false
  | some h => decide (h ≠ 0) && decide (MIN_HOLD_FOR_ADD ≤ h)

/-- The breakout-proximity guard of source line 1315: the current price is at
least 98 percent of the rolling resistance; false when the resistance is NaN,
as the IEEE comparison is in the source. -/
def near_resistance (s : PosState) : Bool :=
  match s.resistance with
  | none => false
  | some r => decide (r * (49/50) ≤ s.current_price)

/-- The record returned by `generate_signal` (source dict with keys signal,
color, action, priority, risk_score; the reasoning list of presentation
strings is not modelled). -/
structure SigResult where
  label : SignalLabel
  color : String
  action : Option SigAction
  priority : ℕ
  risk_score : ℤ
deriving DecidableEq

/-- The eighteen-branch first-match elif cascade of `generate_signal`,
source lines 1181 to 1372, reached only after the weekend and settling
early returns; branches in source order. -/
def signal_cascade (s : PosState) : SigResult :=
  if s.gain_loss_pct ≤ STOP_LOSS_HARD then
    ⟨.STOP_LOSS, "red", some .SELL_ALL, 100, calculate_risk_score s⟩
  else if 0 < s.gain_loss_pct ∧ s.drawdown_from_peak ≤ -TRAILING_STOP_PCT then
    ⟨.TRAILING_STOP, "orange", some .SELL_HALF, 90, calculate_risk_score s⟩
  else if PROFIT_TIER_4 ≤ s.gain_loss_pct then
    ⟨.TAKE_PROFIT, "green", some .SELL_MOST, 85, calculate_risk_score s⟩
  else if nanGt s.rsi RSI_EXTREME_OVERBOUGHT ∧ PROFIT_TIER_2 ≤ s.gain_loss_pct then
    ⟨.RSI_TRIM, "green", some .SELL_HALF, 80, calculate_risk_score s⟩
  else if PROFIT_TIER_3 ≤ s.gain_loss_pct then
    ⟨.TRIM_T3, "green", some .SELL_QUARTER, 70, calculate_risk_score s⟩
  else if PROFIT_TIER_2 ≤ s.gain_loss_pct then
    ⟨.PROFIT_T2, "green", some .SELL_QUARTER, 60, calculate_risk_score s⟩
  else if PROFIT_TIER_1 ≤ s.gain_loss_pct ∧ nanGt s.rsi RSI_OVERBOUGHT then
    ⟨.OVERBOUGHT_T1, "orange", some .CONSIDER_TRIM, 50, calculate_risk_score s⟩
  else if s.divergence = some .BEARISH ∧ 5 < s.gain_loss_pct then
    ⟨.BEARISH_DIV_WARN, "orange", some .WATCH_CLOSELY, 45, calculate_risk_score s⟩
  else if s.vol_pattern = .DISTRIBUTION ∧ 0 < s.gain_loss_pct then
    ⟨.DISTRIBUTION_WARN, "orange", some .WATCH_CLOSELY, 40, calculate_risk_score s⟩
  else if s.gain_loss_pct ≤ STOP_LOSS_SOFT then
    ⟨.SOFT_LOSS, "red", some .EVALUATE, 75, calculate_risk_score s⟩
  else if s.gain_loss_pct ≤ STOP_LOSS_WARN then
    ⟨.WARN_LOSS, "orange", some .MONITOR, 30, calculate_risk_score s⟩
  else if hold_eligible s.holding_days ∧ s.gain_loss_pct ≤ ADD_ON_DIP_DRAWDOWN
      ∧ nanLt s.rsi ADD_ON_DIP_RSI ∧ s.trend ≠ .DOWN ∧ s.vol_pattern ≠ .DISTRIBUTION then
    ⟨.ADD_ON_DIP, "green", some .BUY_MORE, 55, calculate_risk_score s⟩
  else if s.divergence = some .BULLISH ∧ s.gain_loss_pct < 0 then
    ⟨.BULLISH_DIV, "blue", some .HOLD_STRONG, 35, calculate_risk_score s⟩
  else if hold_eligible s.holding_days ∧ ADD_ON_BREAKOUT_PCT ≤ s.gain_loss_pct
      ∧ near_resistance s ∧ nanGt s.volQuot VOLUME_SPIKE_LVL ∧ nanLt s.rsi RSI_OVERBOUGHT then
    ⟨.BREAKOUT, "purple", some .BUY_MORE, 50, calculate_risk_score s⟩
  else if s.vol_pattern = .ACCUMULATION ∧ 0 ≤ s.gain_loss_pct then
    ⟨.ACCUM_STRONG, "blue", some .HOLD, 20, calculate_risk_score s⟩
  else if PROFIT_TIER_1 ≤ s.gain_loss_pct then
    ⟨.HOLD_T1, "blue", some .HOLD, 15, calculate_risk_score s⟩
  else if 0 < s.gain_loss_pct then
    ⟨.HOLD_PROFIT, "blue", some .HOLD, 10, calculate_risk_score s⟩
  else
    ⟨.HOLD_LOSS, "blue", some .HOLD, 10, calculate_risk_score s⟩

/-- `generate_signal`, source lines 1133 to 1372: the weekend early return
(source line 1147), the settling early return (source lines 1158 to 1179),
then the cascade. -/
def generate_signal (s : PosState) : SigResult :=
  if s.is_weekend && !s.is_crypto then
    ⟨.WEEKEND, "gray", none, 0, calculate_risk_score s⟩
  else if is_settling s.holding_days then
    if PROFIT_TIER_1 ≤ s.gain_loss_pct then
      ⟨.NEW_WAIT, "green", none, 0, calculate_risk_score s⟩
    else if s.gain_loss_pct ≤ STOP_LOSS_HARD then
      ⟨.NEW_CAUTION, "red", none, 0, calculate_risk_score s⟩
    else
      ⟨.NEW_SETTLING, "blue", none, 0, calculate_risk_score s⟩
  else
    signal_cascade s

/-- The real per-bar price differences of `prices.diff()` at source line
888 (entry i is price i+1 minus price i).  The diff series of the source
also has a NaN entry in front, which the where-masks below turn into 0
before any rolling mean is taken. -/
def priceDeltas (prices : List ℚ) : List ℚ :=
  List.zipWith (fun a b => b - a) prices prices.tail

/-- The masked gain series `delta.where(delta > 0, 0)` of source line 889,
one entry per bar: at the first bar the diff is NaN and the comparison NaN
greater than 0 is false, so the mask replaces it by 0; at every later bar
the delta is kept where positive and 0 elsewhere.  The result has no NaN
entry. -/
def gainSeries (prices : List ℚ) : List ℚ :=
  match prices with
  | [] => []
  | _ :: _ => 0 :: (priceDeltas prices).map (fun d => if 0 < d then d else 0)

/-- The masked loss series `-delta.where(delta < 0, 0)` of source line 890,
one entry per bar: the leading NaN diff is masked to 0 (NaN less than 0 is
false), and at every later bar the negated delta is kept where the delta is
negative and 0 elsewhere.  The result has no NaN entry. -/
def lossSeries (prices : List ℚ) : List ℚ :=
  match prices with
  | [] => []
  | _ :: _ => 0 :: (priceDeltas prices).map (fun d => if d < 0 then -d else 0)

/-- The rolling mean of window `period` evaluated at the final entry of a
NaN-free series, as `.rolling(window=period).mean()` computes it: NaN
(`none`) when fewer than `period` entries exist, otherwise the mean of the
trailing `period` entries. -/
def rollingMeanLast (xs : List ℚ) (period : ℕ) : Option ℚ :=
  if xs.length < period then none
  else some ((xs.drop (xs.length - period)).sum / (period : ℚ))

/-- The average gain at the final bar, source line 889. -/
def avgGainLast (prices : List ℚ) (period : ℕ) : Option ℚ :=
  rollingMeanLast (gainSeries prices) period

/-- The average loss at the final bar, source line 890. -/
def avgLossLast (prices : List ℚ) (period : ℕ) : Option ℚ :=
  rollingMeanLast (lossSeries prices) period

/-- `calculate_rsi` at the final bar, source lines 886 to 893: rs is the
ratio of average gain to average loss and the RSI is 100 - 100/(1+rs).
Because the where-masks run before the rolling mean, the final-bar value is
defined as soon as the series has `period` bars (the masked leading 0 plus
period-1 real deltas fill the window).  The source computes the ratio in
IEEE arithmetic, so when the average loss is 0 it is plus infinity if the
average gain is positive (the RSI is then exactly 100) and NaN if the
average gain is also 0 (the RSI is then NaN); both special cases are
spelled out here, every other case is finite. -/
def rsiLast (prices : List ℚ) (period : ℕ) : Option ℚ :=
  match avgGainLast prices period, avgLossLast prices period with
  | some g, some l =>
      if l = 0 then
        if g = 0 then none else some 100
      else some (100 - 100 / (1 + g / l))
  | _, _ => none

/-- `detect_divergence`, source lines 915 to 937: compare the endpoints of
the trailing lookback window of the price series and of the RSI series.  The
RSI entries can be NaN (`none`), and an endpoint comparison against NaN is
false, as in the source. -/
def detect_divergence (prices : List ℚ) (rsi : List (Option ℚ))
    (lookback : ℕ) : Option Divergence :=
  if prices.length < lookback ∨ rsi.length < lookback then none
  else
    let pr := prices.drop (prices.length - lookback)
    let rr := rsi.drop (rsi.length - lookback)
    if decide (pr.getLastD 0 < pr.headD 0) && nanGtO (rr.getLastD none) (rr.headD none) then
      some .BULLISH
    else if decide (pr.headD 0 < pr.getLastD 0) && nanLtO (rr.getLastD none) (rr.headD none) then
      some .BEARISH
    else none

/-- A trade action recorded in the journal. -/
inductive TradeAct
  | BUY
  | SELL
deriving DecidableEq

/-- A journal entry as `get_positions` reads it: ticker, action, invested
dollars and date (the source reads the amount through a two-key fallback,
get of amount then of amount_invested; the embedding carries the resulting
number directly). -/
structure Trade where
  ticker : String
  action : TradeAct
  amount : ℚ
  date : ℕ
deriving DecidableEq

/-- The per-ticker accumulator dict built by `get_positions`, source lines
150 to 157 (the appended raw trade list of the source is not modelled; no
computation in the repository reads it back). -/
structure RawPos where
  amount : ℚ
  buy_date : Option ℕ
  first_buy_date : Option ℕ
  last_buy_date : Option ℕ
  buy_count : ℕ
deriving DecidableEq

/-- The fresh accumulator of source lines 150 to 157. -/
def emptyRawPos : RawPos :=
  ⟨0, none, none, none, 0⟩

/-- One replay step of `get_positions`, source lines 162 to 180: a BUY adds
the dollars and stamps the dates, a SELL subtracts clamped at 0 and clears
the position entirely when the remaining amount is 0. -/
def applyTrade (p : RawPos) (t : Trade) : RawPos :=
  match t.action with
  | .BUY =>
      { amount := p.amount + t.amount
        buy_date := if p.first_buy_date = none then some t.date else p.buy_date
        first_buy_date := if p.first_buy_date = none then some t.date else p.first_buy_date
        last_buy_date := some t.date
        buy_count := p.buy_count + 1 }
  | .SELL =>
      let a := max 0 (p.amount - t.amount)
      if a ≤ 0 then ⟨0, none, none, none, 0⟩
      else { p with amount := a }

/-- Stable insertion of a trade into a date-sorted list, keeping earlier
list entries first among equal dates; the fold below therefore reproduces
the stable ascending sort of source line 146. -/
def insertByDate (t : Trade) : List Trade → List Trade
  | [] => [t]
  | u :: us => if t.date ≤ u.date then t :: u :: us else u :: insertByDate t us

/-- The stable sort by date of source line 146. -/
def sortByDate (ts : List Trade) : List Trade :=
  ts.foldr insertByDate []

/-- Store a value under a key in the positions dict, modelled as an
association list in insertion order. -/
def setPos : List (String × RawPos) → String → RawPos → List (String × RawPos)
  | [], tk, p => [(tk, p)]
  | (k, q) :: m, tk, p => if k = tk then (k, p) :: m else (k, q) :: setPos m tk p

/-- Read a key from the positions dict. -/
def lookupPos : List (String × RawPos) → String → Option RawPos
  | [], _ => none
  | (k, q) :: m, tk => if k = tk then some q else lookupPos m tk

/-- One iteration of the replay loop of `get_positions`: fetch or create the
accumulator for the ticker of the trade and apply the trade to it. -/
def stepTrade (m : List (String × RawPos)) (t : Trade) : List (String × RawPos) :=
  setPos m t.ticker (applyTrade ((lookupPos m t.ticker).getD emptyRawPos) t)

/-- `get_positions` before the final filter, source lines 144 to 180: fold
the replay step over the date-sorted journal. -/
def get_positions (trades : List Trade) : List (String × RawPos) :=
  (sortByDate trades).foldl stepTrade []

/-- The active filter of source line 183: keep only tickers with a strictly
positive invested amount. -/
def active_positions (trades : List Trade) : List (String × RawPos) :=
  (get_positions trades).filter (fun kv => decide (0 < kv.2.amount))

/-- The fields of a portfolio row that `analyze_tax_lots` reads, source
lines 408 to 431: symbol, holding days (absent or null when no purchase date
is known), percentage gain and dollar gain. -/
structure PortfolioItem where
  symbol : String
  holding_days : Option ℤ
  gain_loss_pct : ℚ
  gain_loss_dollars : ℚ
deriving DecidableEq

/-- Tax status labels assigned at source lines 414 to 421. -/
inductive TaxStatus
  | SHORT_TERM
  | ALMOST_LONG
  | LONG_TERM
deriving DecidableEq

/-- A tax lot record as built by `analyze_tax_lots`, source lines 424 to
432 (the alert message string is presentation only and is not modelled;
whether an alert fires is decided again from the status by
`get_tax_alerts`). -/
structure TaxLot where
  ticker : String
  holding_days : ℤ
  status : TaxStatus
  days_to_long_term : ℤ
  gain_loss_pct : ℚ
  gain_loss_dollars : ℚ
deriving DecidableEq

/-- The per-item body of `analyze_tax_lots`, source lines 408 to 432: a
missing or null holding-days field collapses to 0, the status is LONG_TERM
at or past `SHORT_TERM_DAYS`, ALMOST_LONG when the remaining days are within
`LONG_TERM_BUFFER_DAYS`, otherwise SHORT_TERM. -/
def classify_tax_lot (item : PortfolioItem) : TaxLot :=
  let hd : ℤ := item.holding_days.getD 0
  let days_to : ℤ := SHORT_TERM_DAYS - hd
  if SHORT_TERM_DAYS ≤ hd then
    ⟨item.symbol, hd, .LONG_TERM, max 0 days_to, item.gain_loss_pct, item.gain_loss_dollars⟩
  else if days_to ≤ LONG_TERM_BUFFER_DAYS then
    ⟨item.symbol, hd, .ALMOST_LONG, max 0 days_to, item.gain_loss_pct, item.gain_loss_dollars⟩
  else
    ⟨item.symbol, hd, .SHORT_TERM, max 0 days_to, item.gain_loss_pct, item.gain_loss_dollars⟩

/-- `analyze_tax_lots`, source lines 404 to 434. -/
def analyze_tax_lots (items : List PortfolioItem) : List TaxLot :=
  items.map classify_tax_lot

/-- The two alert types emitted by `get_tax_alerts`, source lines 445 and
454. -/
inductive TaxAlertType
  | HOLD_FOR_LONG_TERM
  | SHORT_TERM_GAIN_WARNING
deriving DecidableEq

/-- An alert record of `get_tax_alerts` (the message string is presentation
only and is not modelled). -/
structure TaxAlert where
  ticker : String
  kind : TaxAlertType
  urgency : String
deriving DecidableEq

/-- The per-lot body of `get_tax_alerts`, source lines 440 to 457: a
high-urgency alert for an almost-long lot in profit, a medium-urgency alert
for a short-term lot with a gain above 20 percent, otherwise nothing. -/
def lot_alert (lot : TaxLot) : Option TaxAlert :=
  if lot.status = .ALMOST_LONG ∧ 0 < lot.gain_loss_pct then
    some ⟨lot.ticker, .HOLD_FOR_LONG_TERM, "high"⟩
  else if lot.status = .SHORT_TERM ∧ 20 < lot.gain_loss_pct then
    some ⟨lot.ticker, .SHORT_TERM_GAIN_WARNING, "medium"⟩
  else none

/-- `get_tax_alerts`, source lines 436 to 459. -/
def get_tax_alerts (lots : List TaxLot) : List TaxAlert :=
  lots.filterMap lot_alert

/-- One OHLCV bar of the price history, dates ordered as the index of the
source data frame is ordered. -/
structure Bar where
  date : ℕ
  bOpen : ℚ
  high : ℚ
  low : ℚ
  close : ℚ
  volume : ℚ
deriving DecidableEq

/-- `_get_peak_since_buy`, source lines 1072 to 1083: without a first buy
date the peak falls back to the current price; otherwise it is the maximum
High over the bars dated on or after the buy date, falling back to the
current price when no bar qualifies. -/
def peak_since_buy (df : List Bar) (current_price : ℚ)
    (first_buy_date : Option ℕ) : ℚ :=
  match first_buy_date with
  | none => current_price
  | some d =>
      match df.filter (fun b => decide (d ≤ b.date)) with
      | [] => current_price
      | b :: bs => (bs.map Bar.high).foldl max b.high

/-- The drawdown computation of source line 1012, with its guard against a
non-positive peak. -/
def drawdown_from_peak (current_price peak : ℚ) : ℚ :=
  if 0 < peak then (current_price - peak) / peak * 100 else 0

/-- C4: for every position input, however extreme its P/L, RSI, trend,
volume pattern, drawdown and divergence values, `calculate_risk_score`
returns a value between 0 and 100. -/
theorem risk_score_in_range (s : PosState) :
    0 ≤ calculate_risk_score s ∧ calculate_risk_score s ≤ 100 := by
  unfold calculate_risk_score
  exact ⟨le_max_left 0 _, max_le (by norm_num) (min_le_left _ _)⟩

/-- C2: for every position that is not settling and not in the weekend case,
a gain-loss percentage at or below the hard stop of -15 makes
`generate_signal` return action SELL_ALL with priority 100, whatever the
rest of the state is. -/
theorem hard_stop_sell_all (s : PosState)
    (hw : (s.is_weekend && !s.is_crypto) = false)
    (hs : is_settling s.holding_days = false)
    (hp : s.gain_loss_pct ≤ STOP_LOSS_HARD) :
    (generate_signal s).action = some SigAction.SELL_ALL ∧
    (generate_signal s).priority = 100 := by
  simp [generate_signal, signal_cascade, hw, hs, hp]

/-- Witness for C2: the concrete Scenario B state, 16 percent under water,
10 days held, a crypto asset. -/
theorem hard_stop_sell_all_witness :
    ((false && !true) = false ∧ is_settling (some 10) = false ∧ (-16 : ℚ) ≤ STOP_LOSS_HARD)
    ∧ ((generate_signal ⟨some 10, true, false, -16, 0, none, none, .NEUTRAL, none, .SIDEWAYS, 1, none⟩).action
        = some SigAction.SELL_ALL ∧
       (generate_signal ⟨some 10, true, false, -16, 0, none, none, .NEUTRAL, none, .SIDEWAYS, 1, none⟩).priority
        = 100) :=
  ⟨⟨by decide, by decide, by norm_num [STOP_LOSS_HARD]⟩,
   hard_stop_sell_all ⟨some 10, true, false, -16, 0, none, none, .NEUTRAL, none, .SIDEWAYS, 1, none⟩
     (by decide) (by decide) (by norm_num [STOP_LOSS_HARD])⟩

/-- C3: for every position that is not settling and not in the weekend case,
a strictly positive gain with a drawdown from peak at or below the trailing
stop of -12 makes `generate_signal` return action SELL_HALF with priority
90, ahead of every profitable-hold branch. -/
theorem trailing_stop_sell_half (s : PosState)
    (hw : (s.is_weekend && !s.is_crypto) = false)
    (hs : is_settling s.holding_days = false)
    (h1 : 0 < s.gain_loss_pct)
    (h2 : s.drawdown_from_peak ≤ -TRAILING_STOP_PCT) :
    (generate_signal s).action = some SigAction.SELL_HALF ∧
    (generate_signal s).priority = 90 := by
  have hns : ¬ (s.gain_loss_pct ≤ STOP_LOSS_HARD) := by
    rw [STOP_LOSS_HARD]; linarith
  simp [generate_signal, signal_cascade, hw, hs, hns, h1, h2]

/-- Witness for C3: the concrete Scenario C state, up 10 percent with a
14.66 percent drawdown from the 150 peak. -/
theorem trailing_stop_sell_half_witness :
    ((false && !true) = false ∧ is_settling (some 30) = false
      ∧ (0 : ℚ) < 10 ∧ (-44/3 : ℚ) ≤ -TRAILING_STOP_PCT)
    ∧ ((generate_signal ⟨some 30, true, false, 10, -44/3, none, none, .NEUTRAL, none, .SIDEWAYS, 128, none⟩).action
        = some SigAction.SELL_HALF ∧
       (generate_signal ⟨some 30, true, false, 10, -44/3, none, none, .NEUTRAL, none, .SIDEWAYS, 128, none⟩).priority
        = 90) :=
  ⟨⟨by decide, by decide, by norm_num, by norm_num [TRAILING_STOP_PCT]⟩,
   trailing_stop_sell_half
     ⟨some 30, true, false, 10, -44/3, none, none, .NEUTRAL, none, .SIDEWAYS, 128, none⟩
     (by decide) (by decide) (by norm_num) (by norm_num [TRAILING_STOP_PCT])⟩

/-- C1: for every position whose holding duration is known and at most the
settling window of 3 days, outside the weekend case, `generate_signal`
returns the settling variant: action none and priority 0, the label chosen
only by the profit-tier-1 and hard-stop thresholds. -/
theorem settling_signal_muted (s : PosState) (h : ℤ)
    (hh : s.holding_days = some h)
    (hd : h ≤ SETTLING_PERIOD_DAYS)
    (hw : (s.is_weekend && !s.is_crypto) = false) :
    (generate_signal s).action = none ∧
    (generate_signal s).priority = 0 ∧
    (generate_signal s).label =
      (if PROFIT_TIER_1 ≤ s.gain_loss_pct then SignalLabel.NEW_WAIT
       else if s.gain_loss_pct ≤ STOP_LOSS_HARD then SignalLabel.NEW_CAUTION
       else SignalLabel.NEW_SETTLING) := by
  have hs : is_settling s.holding_days = true := by
    simp [is_settling, hh, hd]
  unfold generate_signal
  rw [hw, hs]
  simp only [Bool.false_eq_true, if_false, if_true]
  split_ifs <;> simp

/-- Witness for C1: a position held for 1 day at break even, evaluated on a
weekday. -/
theorem settling_signal_muted_witness :
    ((some (1:ℤ) = some 1) ∧ (1:ℤ) ≤ SETTLING_PERIOD_DAYS ∧ (false && !false) = false)
    ∧ ((generate_signal ⟨some 1, false, false, 0, 0, none, none, .NEUTRAL, none, .SIDEWAYS, 1, none⟩).action
        = none ∧
       (generate_signal ⟨some 1, false, false, 0, 0, none, none, .NEUTRAL, none, .SIDEWAYS, 1, none⟩).priority
        = 0 ∧
       (generate_signal ⟨some 1, false, false, 0, 0, none, none, .NEUTRAL, none, .SIDEWAYS, 1, none⟩).label
        = SignalLabel.NEW_SETTLING) := by
  have h := settling_signal_muted
    ⟨some 1, false, false, 0, 0, none, none, .NEUTRAL, none, .SIDEWAYS, 1, none⟩
    1 rfl (by decide) (by decide)
  refine ⟨⟨rfl, by decide, by decide⟩, h.1, h.2.1, ?_⟩
  have := h.2.2
  norm_num [PROFIT_TIER_1, STOP_LOSS_HARD] at this
  exact this

/-- An if-then-else of signal records keeps the property of carrying an
action of priority at least 10 when both arms have it. -/
theorem ite_action_priority {c : Prop} [Decidable c] {a b : SigResult}
    (ha : a.action.isSome = true ∧ 10 ≤ a.priority)
    (hb : b.action.isSome = true ∧ 10 ≤ b.priority) :
    (if c then a else b).action.isSome = true ∧ 10 ≤ (if c then a else b).priority := by
  by_cases h : c
  · rw [if_pos h]; exact ha
  · rw [if_neg h]; exact hb

/-- Every branch of the cascade carries an action and a priority of at
least 10. -/
theorem cascade_action_priority (s : PosState) :
    (signal_cascade s).action.isSome = true ∧ 10 ≤ (signal_cascade s).priority := by
  unfold signal_cascade
  repeat' apply ite_action_priority
  all_goals exact ⟨rfl, by norm_num⟩

/-- C10: for every evaluation, the action is none exactly when the priority
is 0, the priority is 0 exactly in the weekend and settling early returns,
and in every other case the fired branch yields an action with priority at
least 10. -/
theorem signal_cascade_totality (s : PosState) :
    ((generate_signal s).action = none ↔ (generate_signal s).priority = 0)
  ∧ ((generate_signal s).priority = 0 ↔
      ((s.is_weekend && !s.is_crypto) = true ∨ is_settling s.holding_days = true))
  ∧ ((s.is_weekend && !s.is_crypto) = false → is_settling s.holding_days = false →
      ((generate_signal s).action.isSome = true ∧ 10 ≤ (generate_signal s).priority)) := by
  cases hwk : (s.is_weekend && !s.is_crypto) with
  | true =>
      unfold generate_signal
      rw [hwk]
      simp
  | false =>
      cases hst : is_settling s.holding_days with
      | true =>
          unfold generate_signal
          rw [hwk, hst]
          simp only [Bool.false_eq_true, if_false, if_true]
          split_ifs <;> simp
      | false =>
          have hc := cascade_action_priority s
          have hg : generate_signal s = signal_cascade s := by
            unfold generate_signal
            rw [hwk, hst]
            simp
          rw [hg]
          have ha : (signal_cascade s).action ≠ none := by
            intro h
            have hsome := hc.1
            rw [h] at hsome
            simp at hsome
          have h10 := hc.2
          have hp : (signal_cascade s).priority ≠ 0 := by omega
          exact ⟨iff_of_false ha hp, iff_of_false hp (by simp [hwk, hst]), fun _ _ => hc⟩

/-- The masked gain series has one entry per bar, like the diff series of
the source. -/
theorem gainSeries_length (prices : List ℚ) :
    (gainSeries prices).length = prices.length := by
  cases prices with
  | nil => rfl
  | cons p ps =>
      simp [gainSeries, priceDeltas, List.length_zipWith]

/-- The masked loss series has one entry per bar, like the diff series of
the source. -/
theorem lossSeries_length (prices : List ℚ) :
    (lossSeries prices).length = prices.length := by
  cases prices with
  | nil => rfl
  | cons p ps =>
      simp [lossSeries, priceDeltas, List.length_zipWith]

/-- C5 amended: whenever the average loss over the trailing RSI window is 0
and the average gain over the same window is not 0, `calculate_rsi` yields
exactly 100 at the final bar.  (When both averages are 0, the flat-window
case, the source computes 0/0 and the RSI is NaN; see the counterexample.) -/
theorem avg_loss_zero_rsi_hundred (prices : List ℚ)
    (hl : avgLossLast prices 14 = some 0)
    (hg : avgGainLast prices 14 ≠ some 0) :
    rsiLast prices 14 = some 100 := by
  have hlen : ¬ (lossSeries prices).length < 14 := by
    intro hlt
    rw [avgLossLast, rollingMeanLast, if_pos hlt] at hl
    exact Option.noConfusion hl
  have hlen2 : ¬ (gainSeries prices).length < 14 := by
    rw [gainSeries_length]
    rw [lossSeries_length] at hlen
    exact hlen
  have hlval : avgLossLast prices 14
      = some (((lossSeries prices).drop ((lossSeries prices).length - 14)).sum / (14:ℚ)) := by
    rw [avgLossLast, rollingMeanLast, if_neg hlen]
    norm_num
  have hgval : avgGainLast prices 14
      = some (((gainSeries prices).drop ((gainSeries prices).length - 14)).sum / (14:ℚ)) := by
    rw [avgGainLast, rollingMeanLast, if_neg hlen2]
    norm_num
  have hl2 : ((lossSeries prices).drop ((lossSeries prices).length - 14)).sum / (14:ℚ) = 0 := by
    rw [hlval] at hl
    exact Option.some.inj hl
  have hg2 : ((gainSeries prices).drop ((gainSeries prices).length - 14)).sum / (14:ℚ) ≠ 0 := by
    intro h0
    apply hg
    rw [hgval, h0]
  unfold rsiLast
  rw [hgval, hlval]
  simp [hl2, hg2]

/-- Witness for C5: fifteen strictly increasing prices give average loss 0,
a positive average gain, and an RSI of exactly 100. -/
theorem avg_loss_zero_rsi_hundred_witness :
    avgLossLast [(1:ℚ), 2, 3, 4, 5, 6, 7, 8, 9, 10, 11, 12, 13, 14, 15] 14 = some 0
  ∧ avgGainLast [(1:ℚ), 2, 3, 4, 5, 6, 7, 8, 9, 10, 11, 12, 13, 14, 15] 14 ≠ some 0
  ∧ rsiLast [(1:ℚ), 2, 3, 4, 5, 6, 7, 8, 9, 10, 11, 12, 13, 14, 15] 14 = some 100 :=
  ⟨by norm_num [avgLossLast, rollingMeanLast, lossSeries, priceDeltas],
   by norm_num [avgGainLast, rollingMeanLast, gainSeries, priceDeltas],
   avg_loss_zero_rsi_hundred [(1:ℚ), 2, 3, 4, 5, 6, 7, 8, 9, 10, 11, 12, 13, 14, 15]
     (by norm_num [avgLossLast, rollingMeanLast, lossSeries, priceDeltas])
     (by norm_num [avgGainLast, rollingMeanLast, gainSeries, priceDeltas])⟩

/-- Counterexample for C5 as stated: on a flat window the average loss is 0
yet the RSI at the final bar is NaN (0/0 in the source), not 100. -/
theorem flat_window_rsi_nan :
    avgLossLast [(100:ℚ), 100, 100, 100, 100, 100, 100, 100, 100, 100, 100, 100, 100, 100, 100] 14
      = some 0
  ∧ rsiLast [(100:ℚ), 100, 100, 100, 100, 100, 100, 100, 100, 100, 100, 100, 100, 100, 100] 14
      = none := by
  constructor
  · norm_num [avgLossLast, rollingMeanLast, lossSeries, priceDeltas]
  · norm_num [rsiLast, avgGainLast, avgLossLast, rollingMeanLast, gainSeries, lossSeries,
      priceDeltas]

/-- At exactly 14 bars the final-bar window is already full (the masked
leading 0 plus the 13 real deltas), so the source computes a defined RSI
there: strictly increasing prices give exactly 100. -/
theorem fourteen_bar_rsi_defined :
    rsiLast [(1:ℚ), 2, 3, 4, 5, 6, 7, 8, 9, 10, 11, 12, 13, 14] 14 = some 100 := by
  norm_num [rsiLast, avgGainLast, avgLossLast, rollingMeanLast, gainSeries, lossSeries,
    priceDeltas]

/-- C6 amended: with fewer bars than the window needs (fewer than 14 for
either indicator, since the where-mask fills the first slot of the RSI
window), the indicators return defined neutral or undefined sentinels
rather than raising: the RSI at the final bar is NaN (which downstream
readers of a missing RSI key default to 50), and `detect_divergence`
returns no divergence. -/
theorem insufficient_bars_neutral (prices : List ℚ) (rsi : List (Option ℚ)) :
    (prices.length < 14 → rsiLast prices 14 = none)
  ∧ (prices.length < 14 → detect_divergence prices rsi 14 = none) := by
  constructor
  · intro h
    have hg : avgGainLast prices 14 = none := by
      rw [avgGainLast, rollingMeanLast, if_pos (by rw [gainSeries_length]; exact h)]
    have hl : avgLossLast prices 14 = none := by
      rw [avgLossLast, rollingMeanLast, if_pos (by rw [lossSeries_length]; exact h)]
    unfold rsiLast
    rw [hg, hl]
  · intro h
    unfold detect_divergence
    rw [if_pos (Or.inl h)]

/-- Witness for C6: a one-bar series, where the RSI at the final bar is NaN
and no divergence is reported. -/
theorem insufficient_bars_neutral_witness :
    ([(1:ℚ)].length < 14 ∧ rsiLast [(1:ℚ)] 14 = none)
  ∧ ([(1:ℚ)].length < 14 ∧ detect_divergence [(1:ℚ)] [none] 14 = none) :=
  ⟨⟨by norm_num, (insufficient_bars_neutral [(1:ℚ)] [none]).1 (by norm_num)⟩,
   ⟨by norm_num, (insufficient_bars_neutral [(1:ℚ)] [none]).2 (by norm_num)⟩⟩

/-- Counterexample for C6 as stated: on a five-bar series the RSI at the
final bar is NaN, not the neutral value 50 the claim names (the 50 default
lives in the consumers of the portfolio rows, not in `calculate_rsi`). -/
theorem rsi_insufficient_is_nan_not_fifty :
    rsiLast [(1:ℚ), 1, 1, 1, 1] 14 = none
  ∧ rsiLast [(1:ℚ), 1, 1, 1, 1] 14 ≠ some 50 := by
  constructor
  · norm_num [rsiLast, avgGainLast, avgLossLast, rollingMeanLast, gainSeries, lossSeries,
      priceDeltas]
  · norm_num [rsiLast, avgGainLast, avgLossLast, rollingMeanLast, gainSeries, lossSeries,
      priceDeltas]
    intro hcontra
    exact Option.noConfusion hcontra

/-- C7: replaying an empty trade log yields no position for any ticker, and
replaying a 500 dollar BUY followed by a 500 dollar SELL of the same ticker
yields a fully closed position (invested amount 0, buy dates cleared, buy
count 0), absent from the active-positions result, with the invested amount
nonnegative after every prefix of the replay. -/
theorem trade_replay_round_trip (tk : String) (d1 d2 : ℕ) (h : d1 ≤ d2) :
    get_positions [] = []
  ∧ active_positions [] = []
  ∧ lookupPos (get_positions [⟨tk, .BUY, 500, d1⟩, ⟨tk, .SELL, 500, d2⟩]) tk
      = some ⟨0, none, none, none, 0⟩
  ∧ active_positions [⟨tk, .BUY, 500, d1⟩, ⟨tk, .SELL, 500, d2⟩] = []
  ∧ (∀ k : ℕ,
      ∀ kv ∈ ((sortByDate [⟨tk, .BUY, 500, d1⟩, ⟨tk, .SELL, 500, d2⟩]).take k).foldl stepTrade [],
        0 ≤ kv.2.amount) := by
  have hsort : sortByDate [⟨tk, .BUY, 500, d1⟩, (⟨tk, .SELL, 500, d2⟩ : Trade)]
      = [⟨tk, .BUY, 500, d1⟩, ⟨tk, .SELL, 500, d2⟩] := by
    simp [sortByDate, insertByDate, h]
  have hbuy : stepTrade [] ⟨tk, .BUY, 500, d1⟩
      = [(tk, ⟨500, some d1, some d1, some d1, 1⟩)] := by
    simp [stepTrade, lookupPos, setPos, applyTrade, emptyRawPos]
  have hsell : stepTrade [(tk, ⟨500, some d1, some d1, some d1, 1⟩)] ⟨tk, .SELL, 500, d2⟩
      = [(tk, ⟨0, none, none, none, 0⟩)] := by
    simp [stepTrade, lookupPos, setPos, applyTrade]
  have hfold : get_positions [⟨tk, .BUY, 500, d1⟩, ⟨tk, .SELL, 500, d2⟩]
      = [(tk, ⟨0, none, none, none, 0⟩)] := by
    unfold get_positions
    rw [hsort]
    rw [List.foldl_cons, List.foldl_cons, List.foldl_nil, hbuy, hsell]
  refine ⟨rfl, rfl, ?_, ?_, ?_⟩
  · rw [hfold]
    simp [lookupPos]
  · unfold active_positions
    rw [hfold]
    simp
  · intro k kv hkv
    rw [hsort] at hkv
    match k with
    | 0 => simp at hkv
    | 1 =>
        rw [List.take_succ_cons, List.take_zero, List.foldl_cons, List.foldl_nil, hbuy] at hkv
        simp at hkv
        subst hkv
        norm_num
    | (n + 2) =>
        rw [List.take_succ_cons, List.take_succ_cons, List.take_nil,
            List.foldl_cons, List.foldl_cons, List.foldl_nil, hbuy, hsell] at hkv
        simp at hkv
        subst hkv
        norm_num

/-- Witness for C7: the round trip at a concrete ticker and dates. -/
theorem trade_replay_round_trip_witness :
    (0:ℕ) ≤ 1
  ∧ lookupPos (get_positions [⟨"BTC", .BUY, 500, 0⟩, ⟨"BTC", .SELL, 500, 1⟩]) "BTC"
      = some ⟨0, none, none, none, 0⟩
  ∧ active_positions [⟨"BTC", .BUY, 500, 0⟩, ⟨"BTC", .SELL, 500, 1⟩] = [] :=
  ⟨by decide,
   (trade_replay_round_trip "BTC" 0 1 (by decide)).2.2.1,
   (trade_replay_round_trip "BTC" 0 1 (by decide)).2.2.2.1⟩

/-- C8 amended: `analyze_tax_lots` classifies by holding days against the
long-term threshold of 365 days with an advance-warning buffer of 14 days
(not 30): LONG_TERM at or past 365, ALMOST_LONG from 351 to 364, otherwise
SHORT_TERM; and `get_tax_alerts` emits an alert exactly when the lot is
within the buffer and profitable, or short-term with a gain above the
20 percent materiality threshold. -/
theorem tax_lot_classification (item : PortfolioItem) :
    ((classify_tax_lot item).status = TaxStatus.LONG_TERM ↔ 365 ≤ item.holding_days.getD 0)
  ∧ ((classify_tax_lot item).status = TaxStatus.ALMOST_LONG ↔
      (351 ≤ item.holding_days.getD 0 ∧ item.holding_days.getD 0 < 365))
  ∧ ((classify_tax_lot item).status = TaxStatus.SHORT_TERM ↔ item.holding_days.getD 0 < 351)
  ∧ (get_tax_alerts (analyze_tax_lots [item]) ≠ [] ↔
      (((classify_tax_lot item).status = TaxStatus.ALMOST_LONG ∧ 0 < item.gain_loss_pct)
      ∨ ((classify_tax_lot item).status = TaxStatus.SHORT_TERM ∧ 20 < item.gain_loss_pct))) := by
  by_cases h1 : (365:ℤ) ≤ item.holding_days.getD 0
  · have hcl : classify_tax_lot item
        = ⟨item.symbol, item.holding_days.getD 0, .LONG_TERM,
           max 0 (365 - item.holding_days.getD 0), item.gain_loss_pct,
           item.gain_loss_dollars⟩ := by
      simp [classify_tax_lot, SHORT_TERM_DAYS, LONG_TERM_BUFFER_DAYS, h1]
    refine ⟨?_, ?_, ?_, ?_⟩
    · rw [hcl]; simp; try omega
    · rw [hcl]; simp; try omega
    · rw [hcl]; simp; try omega
    · simp [get_tax_alerts, analyze_tax_lots, hcl, lot_alert]
  · by_cases h2 : (365:ℤ) - item.holding_days.getD 0 ≤ 14
    · have hcl : classify_tax_lot item
          = ⟨item.symbol, item.holding_days.getD 0, .ALMOST_LONG,
             max 0 (365 - item.holding_days.getD 0), item.gain_loss_pct,
             item.gain_loss_dollars⟩ := by
        simp [classify_tax_lot, SHORT_TERM_DAYS, LONG_TERM_BUFFER_DAYS, h1, h2]
      refine ⟨?_, ?_, ?_, ?_⟩
      · rw [hcl]; simp; try omega
      · rw [hcl]; simp; try omega
      · rw [hcl]; simp; try omega
      · by_cases hp : (0:ℚ) < item.gain_loss_pct
        · simp [get_tax_alerts, analyze_tax_lots, hcl, lot_alert, hp]
        · simp [get_tax_alerts, analyze_tax_lots, hcl, lot_alert, hp]
    · have hcl : classify_tax_lot item
          = ⟨item.symbol, item.holding_days.getD 0, .SHORT_TERM,
             max 0 (365 - item.holding_days.getD 0), item.gain_loss_pct,
             item.gain_loss_dollars⟩ := by
        simp [classify_tax_lot, SHORT_TERM_DAYS, LONG_TERM_BUFFER_DAYS, h1, h2]
      refine ⟨?_, ?_, ?_, ?_⟩
      · rw [hcl]; simp; try omega
      · rw [hcl]; simp; try omega
      · rw [hcl]; simp; try omega
      · by_cases hp : (20:ℚ) < item.gain_loss_pct
        · simp [get_tax_alerts, analyze_tax_lots, hcl, lot_alert, hp]
        · simp [get_tax_alerts, analyze_tax_lots, hcl, lot_alert, hp]

/-- Counterexample for C8 as stated: 340 holding days is 25 days from the
long-term threshold, inside the claimed 30-day buffer and profitable, yet
the code (whose buffer constant is 14) classifies the lot SHORT_TERM, not
ALMOST_LONG, and emits no alert for its 10 percent gain. -/
theorem tax_buffer_not_thirty :
    (365 : ℤ) - 340 ≤ 30
  ∧ (0:ℚ) < 10
  ∧ (classify_tax_lot ⟨"X", some 340, 10, 100⟩).status = TaxStatus.SHORT_TERM
  ∧ (classify_tax_lot ⟨"X", some 340, 10, 100⟩).status ≠ TaxStatus.ALMOST_LONG
  ∧ get_tax_alerts (analyze_tax_lots [⟨"X", some 340, 10, 100⟩]) = [] := by
  refine ⟨by norm_num, by norm_num, ?_, ?_, ?_⟩
  · norm_num [classify_tax_lot, SHORT_TERM_DAYS, LONG_TERM_BUFFER_DAYS]
  · norm_num [classify_tax_lot, SHORT_TERM_DAYS, LONG_TERM_BUFFER_DAYS]
    decide
  · norm_num [get_tax_alerts, analyze_tax_lots, classify_tax_lot, lot_alert,
      SHORT_TERM_DAYS, LONG_TERM_BUFFER_DAYS]
    intro hcontra
    exact absurd hcontra (by decide)

/-- The starting value of a left max-fold is at most the fold. -/
theorem le_foldl_max_init (l : List ℚ) (a : ℚ) : a ≤ l.foldl max a := by
  induction l generalizing a with
  | nil => exact le_refl a
  | cons x xs ih =>
      calc a ≤ max a x := le_max_left a x
        _ ≤ xs.foldl max (max a x) := ih (max a x)

/-- Every member of the list is at most a left max-fold over it. -/
theorem le_foldl_max_mem (l : List ℚ) (a x : ℚ) (hx : x ∈ l) : x ≤ l.foldl max a := by
  induction l generalizing a with
  | nil => cases hx
  | cons y ys ih =>
      rw [List.foldl_cons]
      rcases List.mem_cons.mp hx with hxy | hxs
      · subst hxy
        calc x ≤ max a x := le_max_right a x
          _ ≤ ys.foldl max (max a x) := le_foldl_max_init ys (max a x)
      · exact ih (max a y) hxs

/-- The High of any bar in a nonempty filtered list is at most the peak the
source computes over that list. -/
theorem high_le_peak_fold (b : Bar) (bs : List Bar) (x : Bar) (hx : x ∈ b :: bs) :
    x.high ≤ (bs.map Bar.high).foldl max b.high := by
  rcases List.mem_cons.mp hx with hxb | hxs
  · subst hxb
    exact le_foldl_max_init (bs.map Bar.high) x.high
  · exact le_foldl_max_mem (bs.map Bar.high) b.high x.high (List.mem_map_of_mem Bar.high hxs)

/-- C9: for every price series that is chronologically ordered with a final
bar whose close does not exceed its high (the OHLC well-formedness of the
data model), and for every first-buy date or none, the drawdown from the
peak is at most 0, including the fallback cases where the peak is taken to
be the current price or is non-positive. -/
theorem drawdown_from_peak_nonpos (df : List Bar) (fbd : Option ℕ) (hne : df ≠ [])
    (hchron : ∀ b ∈ df, b.date ≤ (df.getLast hne).date)
    (hwf : (df.getLast hne).close ≤ (df.getLast hne).high) :
    drawdown_from_peak ((df.getLast hne).close)
      (peak_since_buy df ((df.getLast hne).close) fbd) ≤ 0 := by
  have hzero : ∀ cp : ℚ, drawdown_from_peak cp cp ≤ 0 := by
    intro cp
    unfold drawdown_from_peak
    split_ifs with hpos
    · simp
    · exact le_refl 0
  have hdd : ∀ cp peak : ℚ, cp ≤ peak → drawdown_from_peak cp peak ≤ 0 := by
    intro cp peak hle
    unfold drawdown_from_peak
    split_ifs with hpos
    · have h1 : cp - peak ≤ 0 := sub_nonpos.mpr hle
      have h2 : (cp - peak) / peak ≤ 0 :=
        div_nonpos_of_nonpos_of_nonneg h1 (le_of_lt hpos)
      have h3 := mul_le_mul_of_nonneg_right h2 (by norm_num : (0:ℚ) ≤ 100)
      simpa using h3
    · exact le_refl 0
  cases fbd with
  | none => exact hzero _
  | some d =>
      have hps0 : peak_since_buy df ((df.getLast hne).close) (some d)
          = (match df.filter (fun b => decide (d ≤ b.date)) with
             | [] => (df.getLast hne).close
             | b :: bs => (bs.map Bar.high).foldl max b.high) := rfl
      rw [hps0]
      cases hf : df.filter (fun b => decide (d ≤ b.date)) with
      | nil => exact hzero _
      | cons b bs =>
          have hbmem : b ∈ df.filter (fun b => decide (d ≤ b.date)) := by
            rw [hf]; exact List.mem_cons_self b bs
          have hbdf : b ∈ df := List.mem_of_mem_filter hbmem
          have hbd : d ≤ b.date := by
            have := List.of_mem_filter hbmem
            simpa using this
          have hlastd : d ≤ (df.getLast hne).date := le_trans hbd (hchron b hbdf)
          have hlastmem : df.getLast hne ∈ df.filter (fun b => decide (d ≤ b.date)) :=
            List.mem_filter.mpr ⟨List.getLast_mem hne, by simpa using hlastd⟩
          rw [hf] at hlastmem
          have hpeak : (df.getLast hne).high ≤ (bs.map Bar.high).foldl max b.high :=
            high_le_peak_fold b bs (df.getLast hne) hlastmem
          exact hdd _ _ (le_trans hwf hpeak)

/-- Witness for C9: a two-bar series bought on day 0, where the drawdown
from the 12 peak to the 9 close is negative. -/
theorem drawdown_from_peak_nonpos_witness :
    ([⟨0, 10, 12, 9, 10, 50⟩, ⟨1, 10, 12, 8, 9, 60⟩] : List Bar) ≠ []
  ∧ drawdown_from_peak
      (([⟨0, 10, 12, 9, 10, 50⟩, ⟨1, 10, 12, 8, 9, 60⟩] : List Bar).getLast (by simp)).close
      (peak_since_buy [⟨0, 10, 12, 9, 10, 50⟩, ⟨1, 10, 12, 8, 9, 60⟩]
        (([⟨0, 10, 12, 9, 10, 50⟩, ⟨1, 10, 12, 8, 9, 60⟩] : List Bar).getLast (by simp)).close
        (some 0)) ≤ 0 :=
  ⟨by simp,
   drawdown_from_peak_nonpos [⟨0, 10, 12, 9, 10, 50⟩, ⟨1, 10, 12, 8, 9, 60⟩] (some 0)
     (by simp) (by norm_num) (by norm_num)⟩

/-- Witness for C10: the implication conjunct discharged on a concrete
weekday, non-settling state. -/
theorem signal_cascade_totality_witness :
    ((false && !true) = false ∧ is_settling (some 20) = false)
    ∧ ((generate_signal ⟨some 20, true, false, 1, 0, none, none, .NEUTRAL, none, .SIDEWAYS, 1, none⟩).action.isSome
        = true ∧
       10 ≤ (generate_signal ⟨some 20, true, false, 1, 0, none, none, .NEUTRAL, none, .SIDEWAYS, 1, none⟩).priority) :=
  ⟨⟨by decide, by decide⟩,
   (signal_cascade_totality ⟨some 20, true, false, 1, 0, none, none, .NEUTRAL, none, .SIDEWAYS, 1, none⟩).2.2
     (by decide) (by decide)⟩

end WhaleWatcher
